import Mathlib

/-!
Verification development for the audio2textjs pipeline
(`src/convertAudioFile.js`, `src/downloadWhisperModels.js`,
`src/fetchBinFiles.js`, and the `Audio2TextJS` runner class).

The JavaScript code is shallowly embedded: every subprocess, filesystem
probe and network transfer is an oracle supplied through an environment
record, promise resolution/rejection is `Except`, and the side effects a
call performs (spawned subprocesses, `unlink`s, reads) are returned as
explicit traces so that frame conditions can be stated.
-/

namespace Audio2Text

/-- Split a character list at every occurrence of `c` (the character-level
core of JS `String.prototype.split`). -/
def charsSplitOn (c : Char) : List Char → List (List Char)
  | [] => [[]]
  | x :: xs =>
    match charsSplitOn c xs with
    | [] => [[]]
    | y :: ys => if x = c then [] :: y :: ys else (x :: y) :: ys

/-- JS `path.basename`: the part of `p` after the last `/`. -/
def basename (p : String) : String :=
  String.mk ((charsSplitOn '/' p.data).getLastD p.data)

/-- JS `path.extname`: the suffix of the basename from its last dot
(empty for names with no dot and for dotfiles such as `.bashrc`). -/
def extname (p : String) : String :=
  match charsSplitOn '.' (basename p).data with
  | [] => ""
  | [_] => ""
  | first :: rest =>
    if first = [] ∧ rest.length = 1 then ""
    else String.mk ('.' :: rest.getLastD [])

/-- ASCII lower-casing of one character (JS `toLowerCase`, which the
sources apply to ASCII file extensions). -/
def lowerChar (c : Char) : Char :=
  if 65 ≤ c.toNat ∧ c.toNat ≤ 90 then Char.ofNat (c.toNat + 32) else c

/-- JS `String.prototype.toLowerCase` on ASCII text. -/
def toLowerStr (s : String) : String := String.mk (s.data.map lowerChar)

/-- ASCII whitespace, for `trim`. -/
def isWs (c : Char) : Bool := c = ' ' || c = '\t' || c = '\n' || c = '\r'

/-- JS `String.prototype.trim`. -/
def trimStr (s : String) : String :=
  String.mk (((s.data.dropWhile isWs).reverse.dropWhile isWs).reverse)

/-- Decimal digit value of a character, if any. -/
def digitVal? (c : Char) : Option Nat :=
  if '0' ≤ c ∧ c ≤ '9' then some (c.toNat - 48) else none

/-- Accumulate a decimal number; any non-digit makes the parse fail. -/
def parseNatAux : List Char → Nat → Option Nat
  | [], acc => some acc
  | c :: cs, acc =>
    match digitVal? c with
    | none => none
    | some d => parseNatAux cs (acc * 10 + d)

/-- JS `parseInt(s, 10)` restricted to all-digit strings; `none` stands
for `NaN` (which compares unequal to every sample rate, as 16000 ≠ 0
keeps the `getD 0` encoding below faithful). -/
def parseNat? (s : String) : Option Nat :=
  match s.data with
  | [] => none
  | l => parseNatAux l 0

/-- JS `path.join` restricted to two segments, as the sources use it. -/
def joinP (a b : String) : String := a ++ "/" ++ b

/-- `needle` occurs somewhere inside `s` (JS `String.prototype.includes`). -/
def strIncludes (s needle : String) : Bool :=
  (List.range (s.data.length + 1)).any fun i => needle.data.isPrefixOf (s.data.drop i)

/-- Outcome of one spawned subprocess: its exit code and captured streams. -/
structure Proc where
  exitCode : Nat
  stdout : String := ""
  stderr : String := ""

/-! ## `convertAudioFile.js`

The environment holds the oracles the module consults: whether the
bundled ffmpeg/ffprobe executables exist (`getFFmpegPaths`), whether the
input file exists, and the outcome of each subprocess it may spawn.
`platformError` models the exception `getFFmpegPaths` throws on an
unsupported platform/architecture (`none` = supported). -/

structure ConvEnv where
  platformError : Option String := none
  ffmpegPresent : Bool := true
  ffprobePresent : Bool := true
  fileExists : String → Bool
  probe : String → Proc
  toWav : String → String → Proc
  resample : String → Nat → String → Proc

/-- One subprocess invocation made by `convertAudioFile`. -/
inductive Spawn where
  | probe (file : String)
  | ffmpegToWav (input output : String)
  | ffmpegResample (input : String) (rate : Nat) (output : String)
deriving DecidableEq, Repr

/-- `getSampleRate`: spawn ffprobe; exit 0 resolves the parsed stdout
(`parseInt` modelled by `parseNat?`, defaulting to 0 for output that
parses to `NaN`), otherwise reject. -/
def getSampleRate (env : ConvEnv) (inputFilePath : String) : Except String Nat :=
  let o := env.probe inputFilePath
  if o.exitCode = 0 then .ok ((parseNat? (trimStr o.stdout)).getD 0)
  else .error ("Failed to get sample rate: " ++ trimStr o.stderr)

/-- `convertToWav`: spawn ffmpeg `-y -i input output`; exit 0 resolves the
output path, otherwise reject. -/
def convertToWav (env : ConvEnv) (inputFilePath outputFilePath : String) :
    Except String String :=
  let o := env.toWav inputFilePath outputFilePath
  if o.exitCode = 0 then .ok outputFilePath
  else .error ("Failed to convert to WAV: " ++ trimStr o.stderr)

/-- Result object of `convertAudioFile` (failure objects carry no `output`). -/
structure ConvResult where
  success : Bool
  message : String
  output : Option String := none
deriving DecidableEq, Repr

/-- `convertSampleRate`: spawn ffmpeg `-y -i input -ar rate output`; exit 0
resolves a full success object, otherwise reject. -/
def convertSampleRate (env : ConvEnv) (inputFilePath outputFilePath : String)
    (desiredSampleRate : Nat) : Except String ConvResult :=
  let o := env.resample inputFilePath desiredSampleRate outputFilePath
  if o.exitCode = 0 then
    .ok { success := true,
          message := "File '" ++ inputFilePath ++ "' successfully converted to '" ++
            outputFilePath ++ "' with sample rate " ++ toString desiredSampleRate ++ " Hz.",
          output := some outputFilePath }
  else
    .error ("Failed to convert '" ++ inputFilePath ++ "' to the desired sample rate: " ++
      trimStr o.stderr)

/-- The `try` block of `convertAudioFile`: an `.error` is a thrown/rejected
JS error reaching the surrounding `catch`. Besides the promise outcome it
returns the subprocesses spawned and the files `unlinkSync`ed so far. -/
def convertBody (env : ConvEnv) (inputFilePath : String) (desiredSampleRate : Nat) :
    Except String ConvResult × List Spawn × List String :=
  match env.platformError with
  | some e => (.error e, [], [])
  | none =>
    if !(env.ffmpegPresent && env.ffprobePresent) then
      (.error "FFmpeg or ffprobe is not installed.", [], [])
    else if !(env.fileExists inputFilePath) then
      (.error ("Input file '" ++ inputFilePath ++ "' not found."), [], [])
    else
      let ext := toLowerStr (extname inputFilePath)
      if ext == ".wav" then
        match getSampleRate env inputFilePath with
        | .error e => (.error e, [Spawn.probe inputFilePath], [])
        | .ok currentSampleRate =>
          if currentSampleRate = desiredSampleRate then
            (.ok { success := true,
                   message := "Input file '" ++ inputFilePath ++
                     "' is already at the desired sample rate.",
                   output := some inputFilePath },
             [Spawn.probe inputFilePath], [])
          else
            let outputFilePath := inputFilePath ++ ".OUTPUT.wav"
            match convertSampleRate env inputFilePath outputFilePath desiredSampleRate with
            | .error e =>
              (.error e,
               [Spawn.probe inputFilePath,
                Spawn.ffmpegResample inputFilePath desiredSampleRate outputFilePath], [])
            | .ok r =>
              (.ok r,
               [Spawn.probe inputFilePath,
                Spawn.ffmpegResample inputFilePath desiredSampleRate outputFilePath], [])
      else
        let tempWavPath := inputFilePath ++ ".TEMP.wav"
        match convertToWav env inputFilePath tempWavPath with
        | .error e => (.error e, [Spawn.ffmpegToWav inputFilePath tempWavPath], [])
        | .ok _ =>
          match getSampleRate env tempWavPath with
          | .error e =>
            (.error e,
             [Spawn.ffmpegToWav inputFilePath tempWavPath, Spawn.probe tempWavPath], [])
          | .ok currentSampleRate =>
            if currentSampleRate = desiredSampleRate then
              (.ok { success := true,
                     message := "Input file '" ++ inputFilePath ++
                       "' converted to WAV format with the desired sample rate.",
                     output := some tempWavPath },
               [Spawn.ffmpegToWav inputFilePath tempWavPath, Spawn.probe tempWavPath], [])
            else
              let outputFilePath := inputFilePath ++ ".OUTPUT.wav"
              match convertSampleRate env tempWavPath outputFilePath desiredSampleRate with
              | .error e =>
                (.error e,
                 [Spawn.ffmpegToWav inputFilePath tempWavPath, Spawn.probe tempWavPath,
                  Spawn.ffmpegResample tempWavPath desiredSampleRate outputFilePath], [])
              | .ok r =>
                (.ok r,
                 [Spawn.ffmpegToWav inputFilePath tempWavPath, Spawn.probe tempWavPath,
                  Spawn.ffmpegResample tempWavPath desiredSampleRate outputFilePath],
                 [tempWavPath])

/-- What one `convertAudioFile` call settles to, with its effect traces. -/
structure ConvOutcome where
  result : ConvResult
  spawns : List Spawn
  unlinks : List String
deriving DecidableEq, Repr

/-- `convertAudioFile`: the `try` body with its `catch`, which turns every
thrown error into a resolved `{success:false, message}` object. -/
def convertAudioFile (env : ConvEnv) (inputFilePath : String)
    (desiredSampleRate : Nat := 16000) : ConvOutcome :=
  match convertBody env inputFilePath desiredSampleRate with
  | (.ok r, sp, ul) => { result := r, spawns := sp, unlinks := ul }
  | (.error e, sp, ul) =>
    { result := { success := false,
                  message := "Failed to convert '" ++ inputFilePath ++
                    "' to the desired sample rate: " ++ e },
      spawns := sp, unlinks := ul }

/-! ## `downloadWhisperModels.js`

`downloadModel(model)` returns a promise.  It *resolves* an object for an
invalid name, a cache hit, a finished download, or the completed `"all"`
fan-out, and it *rejects* an object `{success:false, error}` when the
download subprocess exits non-zero.  The environment gives the on-disk
cache state and the exit code of each model's download subprocess.  The
filesystem/network actions a call performs are returned as an effect
list. -/

/-- Source URL for the standard models (`src` in the JS module). -/
def src : String := "https://huggingface.co/ggerganov/whisper.cpp"

/-- Source URL for tinydiarize-flavoured models (`srcAll`). -/
def srcAll : String := "https://huggingface.co/akashmjn/tinydiarize-whisper.cpp"

/-- URL path prefix for model files (`pfx`). -/
def pfx : String := "resolve/main/ggml"

/-- The fixed list of supported model identifiers (`models`). -/
def models : List String :=
  ["tiny.en", "tiny", "base.en", "base",
   "small.en", "small", "medium.en", "medium",
   "large-v1", "large"]

/-- Oracles for `downloadModel`: the models directory path, which files
exist on disk, and the exit code of the wget/curl subprocess per model. -/
structure DMEnv where
  modelsPath : String := "models"
  fileExists : String → Bool
  downloadExit : String → Nat

/-- Filesystem/network action performed by `downloadModel`. -/
inductive DMEffect where
  | mkdirModels
  | statModel (file : String)
  | spawnDownload (model url : String)
deriving DecidableEq, Repr

/-- A value `downloadModel` *resolves* for one concrete model (or for an
invalid name, which carries no `modelFile`/`modelName`). -/
structure DMOk where
  success : Bool
  message : String
  modelFile : Option String := none
  modelName : Option String := none
deriving DecidableEq, Repr

/-- The object `downloadModel` *rejects*: `{ success: false, error }`. -/
structure DMErr where
  success : Bool
  error : String
deriving DecidableEq, Repr

/-- `downloadModel` on a single (non-`"all"`) model name, with its effects
in program order: `createModelsDirectory`, the `existsSync` cache check,
then (on a miss) the wget/curl spawn. -/
def downloadModelOne (env : DMEnv) (model : String) : Except DMErr DMOk × List DMEffect :=
  if !(models.contains model) && model != "all" then
    (.ok { success := false, message := "Invalid model: " ++ model }, [])
  else
    let modelFile := env.modelsPath ++ "/ggml-" ++ model ++ ".bin"
    let srcUrl := if strIncludes model "tdrz" then srcAll else src
    let downloadUrl := srcUrl ++ "/" ++ pfx ++ "-" ++ model ++ ".bin"
    if env.fileExists modelFile then
      (.ok { success := true,
             message := "Model " ++ model ++ " already exists. Skipping download.",
             modelFile := some modelFile, modelName := some model },
       [DMEffect.mkdirModels, DMEffect.statModel modelFile])
    else if env.downloadExit model = 0 then
      (.ok { success := true,
             message := "Done! Model '" ++ model ++ "' saved in '" ++ modelFile ++ "'",
             modelFile := some modelFile, modelName := some model },
       [DMEffect.mkdirModels, DMEffect.statModel modelFile,
        DMEffect.spawnDownload model downloadUrl])
    else
      (.error { success := false, error := "Failed to download ggml model " ++ model },
       [DMEffect.mkdirModels, DMEffect.statModel modelFile,
        DMEffect.spawnDownload model downloadUrl])

/-- `Promise.all`, determinized: every listed promise has already been
started (their effects all occur); if all resolve so does the aggregate,
otherwise it rejects with the error of the first listed rejection (the JS
runtime picks the first rejection *in time*; which one is immaterial
here, every run below has at most one). -/
def promiseAll {ε α : Type} : List (Except ε α) → Except ε (List α)
  | [] => .ok []
  | x :: xs =>
    match x with
    | .error e => .error e
    | .ok a =>
      match promiseAll xs with
      | .error e => .error e
      | .ok rest => .ok (a :: rest)

/-- A value the top-level `downloadModel` resolves: a per-model object, or
the `"all"` aggregate `{ success: true, details }`. -/
inductive DMValue where
  | obj (o : DMOk)
  | agg (success : Bool) (details : List DMOk)
deriving DecidableEq, Repr

/-- `success` field of a resolved `downloadModel` value, as `runWhisper`
reads it. -/
def dmSuccess : DMValue → Bool
  | .obj o => o.success
  | .agg s _ => s

/-- `modelFile` field of a resolved `downloadModel` value; JS interpolates
an absent field as the string `"undefined"`. -/
def dmModelFile : DMValue → String
  | .obj o => o.modelFile.getD "undefined"
  | .agg _ _ => "undefined"

/-- `downloadModel(model)`: the invalid-name check precedes every
filesystem/network action; `"all"` fans out over `models` with
`Promise.all`; a concrete name takes the single-model path. -/
def downloadModel (env : DMEnv) (model : String) : Except DMErr DMValue × List DMEffect :=
  if !(models.contains model) && model != "all" then
    (.ok (.obj { success := false, message := "Invalid model: " ++ model }), [])
  else if model == "all" then
    let runs := models.map fun m => downloadModelOne env m
    let agg : Except DMErr DMValue :=
      match promiseAll (runs.map Prod.fst) with
      | .error e => .error e
      | .ok oks => .ok (.agg true oks)
    (agg, DMEffect.mkdirModels :: (runs.map Prod.snd).flatten)
  else
    ((downloadModelOne env model).fst.map DMValue.obj, (downloadModelOne env model).snd)

/-! ## `Audio2TextJS` (constructor and `runWhisper`)

The constructor merges a caller-supplied options object over
`defaultOptions` with JS spread semantics: a field present in the
caller's object wins, an absent field falls back to the default, and the
two option names `runWhisper` destructures but `defaultOptions` omits
(`outputAll`, `translate`) are `undefined` — falsy — unless supplied. -/

/-- The merged options record `this.options` as `runWhisper` consumes it
(absent `outputAll`/`translate` modelled as `false`, their falsy value). -/
structure RWOptions where
  threads : Nat := 4
  processors : Nat := 1
  duration : Nat := 0
  maxLen : Nat := 0
  outputJson : Bool := false
  outputTxt : Bool := false
  outputCsv : Bool := false
  outputAll : Bool := false
  translate : Bool := false
deriving DecidableEq, Repr

/-- A caller's options object: `none` = the key is absent. -/
structure UserOptions where
  threads : Option Nat := none
  processors : Option Nat := none
  duration : Option Nat := none
  maxLen : Option Nat := none
  outputJson : Option Bool := none
  outputTxt : Option Bool := none
  outputCsv : Option Bool := none
  outputAll : Option Bool := none
  translate : Option Bool := none
deriving DecidableEq, Repr

/-- `this.options = { ...this.defaultOptions, ...options }` with the
defaults of the constructor body (note: `outputJson` defaults to `false`
there, although the constructor's doc comment says `true`). -/
def mergeOptions (u : UserOptions) : RWOptions :=
  { threads := u.threads.getD 4,
    processors := u.processors.getD 1,
    duration := u.duration.getD 0,
    maxLen := u.maxLen.getD 0,
    outputJson := u.outputJson.getD false,
    outputTxt := u.outputTxt.getD false,
    outputCsv := u.outputCsv.getD false,
    outputAll := u.outputAll.getD false,
    translate := u.translate.getD false }

/-- The engine argument list `runWhisper` builds, including the
`.filter(Boolean)` that drops the empty strings left by disabled flags. -/
def buildArgs (opts : RWOptions) (modelFile language file : String) : List String :=
  ([ "--threads", toString opts.threads,
     "--processors", toString opts.processors,
     "--duration", toString opts.duration,
     "--max-len", toString opts.maxLen,
     if opts.outputJson || opts.outputAll then "--output-json" else "",
     if opts.outputTxt || opts.outputAll then "--output-txt" else "",
     if opts.outputCsv || opts.outputAll then "--output-csv" else "",
     if opts.translate then "--translate" else "",
     "--model", modelFile,
     "--language", language,
     "--file", file ]).filter fun s => s != ""

/-- One collected output artifact (`data` keeps the raw file text; for
JSON the runner stores `JSON.parse` of it, which parses iff the model's
`jsonParse` oracle accepts the text). -/
structure OutputEntry where
  type : String
  data : String
  outputFile : String
deriving DecidableEq, Repr

/-- The object `runWhisper` resolves. -/
structure RunResult where
  success : Bool
  message : String
  output : Option (List OutputEntry) := none
deriving DecidableEq, Repr

/-- A value `runWhisper`'s promise rejects with: the object
`downloadModel` rejects (propagated by the un-guarded `await`), or the
engine subprocess's `error` event. -/
inductive RWReject where
  | dm (e : DMErr)
  | spawnFail (message : String)
deriving DecidableEq, Repr

/-- Oracles for one `runWhisper` call: the model cache and audio
environments, the engine subprocess (spawn `error` event, exit code,
stderr), and the artifact filesystem (`fs.readFile` and `JSON.parse`
outcomes). -/
structure RWEnv where
  dm : DMEnv
  conv : ConvEnv
  whisperSpawnError : Option String := none
  whisperExit : Nat := 0
  whisperStderr : String := ""
  readFile : String → Except String String
  jsonParse : String → Except String Unit

/-- Read and parse the `.json` artifact; either step failing is the one
`catch` with the combined message. -/
def readJsonEntry (env : RWEnv) (file : String) : Except String OutputEntry :=
  match env.readFile file with
  | .error e => .error ("Failed to read or parse JSON output file: " ++ e)
  | .ok content =>
    match env.jsonParse content with
    | .error e => .error ("Failed to read or parse JSON output file: " ++ e)
    | .ok _ => .ok { type := "json", data := content, outputFile := file }

/-- Read the `.txt` artifact. -/
def readTxtEntry (env : RWEnv) (file : String) : Except String OutputEntry :=
  match env.readFile file with
  | .error e => .error ("Failed to read TXT output file: " ++ e)
  | .ok content => .ok { type := "txt", data := content, outputFile := file }

/-- Read the `.csv` artifact. -/
def readCsvEntry (env : RWEnv) (file : String) : Except String OutputEntry :=
  match env.readFile file with
  | .error e => .error ("Failed to read CSV output file: " ++ e)
  | .ok content => .ok { type := "csv", data := content, outputFile := file }

/-- The zero-exit branch of the `close` handler: requested artifacts are
read in JSON, TXT, CSV order; the first failure resolves
`{success:false}` at once.  Also returns the artifact files on which a
read was attempted. -/
def collectOutputs (env : RWEnv) (opts : RWOptions) (out : String) :
    RunResult × List String :=
  let step := fun (want : Bool) (file : String) (reader : String → Except String OutputEntry)
      (acc : Except (String × List String) (List OutputEntry × List String)) =>
    match acc with
    | .error e => .error e
    | .ok (entries, reads) =>
      if want then
        match reader file with
        | .error m => .error (m, reads ++ [file])
        | .ok entry => .ok (entries ++ [entry], reads ++ [file])
      else .ok (entries, reads)
  let r0 : Except (String × List String) (List OutputEntry × List String) := .ok ([], [])
  let r1 := step (opts.outputJson || opts.outputAll) (out ++ ".json") (readJsonEntry env) r0
  let r2 := step (opts.outputTxt || opts.outputAll) (out ++ ".txt") (readTxtEntry env) r1
  let r3 := step (opts.outputCsv || opts.outputAll) (out ++ ".csv") (readCsvEntry env) r2
  match r3 with
  | .error (m, reads) => ({ success := false, message := m }, reads)
  | .ok (entries, reads) =>
    ({ success := true, message := "Whisper process completed successfully.",
       output := some entries }, reads)

/-- What one `runWhisper` call settles to: its promise outcome, the engine
argument list when the spawn was reached, and the artifact files read. -/
structure RWOutcome where
  result : Except RWReject RunResult
  args : Option (List String) := none
  reads : List String := []
deriving Repr

/-- `runWhisper(inputFile, model, language)`.  The `await` on
`downloadModel` has no guard, so that promise's rejection propagates; a
resolved `{success:false}` from it is replaced by the fixed message
`Failed to download ggml model <model>`; a failed conversion's message is
forwarded verbatim; then the engine is spawned (its platform path always
resolves here, since a platform `convertAudioFile` accepts is one
`getWhisperPath` handles) and its `close`/`error` events settle the
promise. -/
def runWhisper (env : RWEnv) (opts : RWOptions) (inputFile model language : String) :
    RWOutcome :=
  match (downloadModel env.dm model).fst with
  | .error e => { result := .error (.dm e) }
  | .ok v =>
    if !(dmSuccess v) then
      { result := .ok { success := false,
                        message := "Failed to download ggml model " ++ model } }
    else
      let cwf := convertAudioFile env.conv inputFile
      if !cwf.result.success then
        { result := .ok { success := false, message := cwf.result.message } }
      else
        let out := cwf.result.output.getD "undefined"
        let args := buildArgs opts (dmModelFile v) language out
        match env.whisperSpawnError with
        | some e => { result := .error (.spawnFail e), args := some args }
        | none =>
          if env.whisperExit = 0 then
            let collected := collectOutputs env opts out
            { result := .ok collected.fst, args := some args, reads := collected.snd }
          else
            { result := .ok { success := false,
                              message := "Whisper process failed with code " ++
                                toString env.whisperExit ++ ". stderr: " ++ env.whisperStderr },
              args := some args }

/-! ## `fetchBinFiles.js`

`fetchBinFiles(os, arch, programs, destDir)` walks the manifest entries
`getFilePaths` selected (the manifest `binFiles.json` is data, not code;
its already-filtered entry list is a parameter here), downloading each
missing primary file and each missing dependency, then recomputes
`result.success` from scratch on line 221 of the source:
`allFilesExist && files.failed.length === 0 && dependencies.failed.length === 0`.
A failed `downloadFile` deletes its partial file, so a failed download
leaves nothing on disk.  `setLDLibraryPath` only mutates environment
state inside its own try/catch and cannot change the returned object, so
it is not modelled. -/

/-- One dependency record of a manifest entry. -/
structure Dep where
  filename : String
  url : String
  path : String
deriving DecidableEq, Repr

/-- One manifest entry as `getFilePaths` returns it. -/
structure BinFile where
  filename : String
  url : String
  path : String
  architecture : String := ""
  dependencies : List Dep := []
deriving DecidableEq, Repr

/-- A per-file success record (`status` is `"exists"` or `"downloaded"`). -/
structure FetchEntry where
  filename : String
  path : String
  status : String
deriving DecidableEq, Repr

/-- A per-file failure record. -/
structure FetchFail where
  filename : String
  url : String
  error : String
deriving DecidableEq, Repr

/-- The object `fetchBinFiles` resolves (the `catch` path carries only
`error`). -/
structure FetchResult where
  success : Bool
  filesSuccess : List FetchEntry := []
  filesFailed : List FetchFail := []
  depsSuccess : List FetchEntry := []
  depsFailed : List FetchFail := []
  error : Option String := none
deriving DecidableEq, Repr

/-- Oracles for `fetchBinFiles`: which full paths exist before the call,
and each download's outcome (`.ok` writes the file, `.error` leaves
nothing behind). -/
structure FetchEnv where
  exists0 : String → Bool
  download : String → String → Except String Unit

/-- `fs.existsSync` during/after the call: a path exists if it did
initially or a download has since written it. -/
def fsExists (env : FetchEnv) (created : List String) (p : String) : Bool :=
  env.exists0 p || created.contains p

/-- Accumulator for the two download loops: files written so far and the
success/failed record lists being built. -/
structure FetchSt where
  created : List String := []
  succ : List FetchEntry := []
  failed : List FetchFail := []
deriving DecidableEq, Repr

/-- One iteration of the primary-file loop: skip an existing file,
otherwise download, recording the outcome. -/
def fetchPrimaryStep (env : FetchEnv) (destDir : String) (st : FetchSt) (file : BinFile) :
    FetchSt :=
  let fileFullPath := joinP destDir file.path
  if fsExists env st.created fileFullPath then
    { st with succ := st.succ ++
        [{ filename := file.filename, path := fileFullPath, status := "exists" }] }
  else
    match env.download file.url fileFullPath with
    | .ok _ =>
      { st with created := st.created ++ [fileFullPath],
                succ := st.succ ++
                  [{ filename := file.filename, path := fileFullPath, status := "downloaded" }] }
    | .error e =>
      { st with failed := st.failed ++
          [{ filename := file.filename, url := file.url, error := e }] }

/-- One iteration of the dependency loop (same skip-or-download logic). -/
def fetchDepStep (env : FetchEnv) (destDir : String) (st : FetchSt) (dep : Dep) : FetchSt :=
  let dependencyPath := joinP destDir dep.path
  if fsExists env st.created dependencyPath then
    { st with succ := st.succ ++
        [{ filename := dep.filename, path := dependencyPath, status := "exists" }] }
  else
    match env.download dep.url dependencyPath with
    | .ok _ =>
      { st with created := st.created ++ [dependencyPath],
                succ := st.succ ++
                  [{ filename := dep.filename, path := dependencyPath, status := "downloaded" }] }
    | .error e =>
      { st with failed := st.failed ++
          [{ filename := dep.filename, url := dep.url, error := e }] }

/-- The dependency pass: for each requested program whose manifest entry
(`<program>.exe` or `<program>`) lists dependencies, run the
skip-or-download logic on each of them. -/
def fetchDeps (env : FetchEnv) (destDir : String) (files : List BinFile)
    (programs : List String) (st0 : FetchSt) : FetchSt :=
  programs.foldl
    (fun st program =>
      match files.find? fun f => f.filename == program ++ ".exe" || f.filename == program with
      | none => st
      | some programFile =>
        if programFile.dependencies.length > 0 then
          programFile.dependencies.foldl (fetchDepStep env destDir) st
        else st)
    st0

/-- `fetchBinFiles`: validation, the two download passes, then the final
`result.success` recomputation.  Returns the result object and the list
of files the call wrote (to state on-disk conditions). -/
def fetchBinFiles (env : FetchEnv) (files : List BinFile) (programs : List String)
    (destDir : String) : FetchResult × List String :=
  if programs.isEmpty then
    ({ success := false,
       error := some "Invalid input: programs should be a non-empty array of program names." },
     [])
  else
    let st1 := files.foldl (fetchPrimaryStep env destDir) {}
    let st2 := fetchDeps env destDir files programs { created := st1.created }
    let allFilesExist := files.all fun f => fsExists env st2.created (joinP destDir f.path)
    ({ success := allFilesExist && st1.failed.isEmpty && st2.failed.isEmpty,
       filesSuccess := st1.succ, filesFailed := st1.failed,
       depsSuccess := st2.succ, depsFailed := st2.failed },
     st2.created)

/-! ## Concrete environments used to instantiate the theorems -/

/-- An environment whose only audio file is `a.wav`, a canonical 16 kHz
WAV (any transcoding attempt would fail, which such a call never makes). -/
def cenvWav : ConvEnv :=
  { fileExists := fun p => p == "a.wav",
    probe := fun _ => { exitCode := 0, stdout := "16000" },
    toWav := fun _ _ => { exitCode := 1 },
    resample := fun _ _ _ => { exitCode := 1 } }

/-- An environment whose only file is `a.mp3` at 44.1 kHz: the container
transcode succeeds, the resample pass fails with stderr `boom`. -/
def cenvMp3 : ConvEnv :=
  { fileExists := fun p => p == "a.mp3",
    probe := fun _ => { exitCode := 0, stdout := "44100" },
    toWav := fun _ _ => { exitCode := 0 },
    resample := fun _ _ _ => { exitCode := 1, stderr := "boom" } }

/-- A model cache with nothing on disk and every download succeeding. -/
def dmEnv0 : DMEnv :=
  { fileExists := fun _ => false, downloadExit := fun _ => 0 }

/-- A model cache with nothing on disk where exactly the download of
`tiny` exits non-zero. -/
def dmEnvFailTiny : DMEnv :=
  { fileExists := fun _ => false, downloadExit := fun m => if m == "tiny" then 1 else 0 }

/-- A runner environment where everything succeeds and the engine exits 0
(no artifact is requested by the default options, so the failing
`readFile` oracle is never consulted). -/
def rwEnvOk : RWEnv :=
  { dm := dmEnv0, conv := cenvWav,
    readFile := fun _ => .error "ENOENT", jsonParse := fun _ => .ok () }

/-- Like `rwEnvOk` but the engine exits 1 with stderr `boom`. -/
def rwEnvExit1 : RWEnv :=
  { dm := dmEnv0, conv := cenvWav, whisperExit := 1, whisperStderr := "boom",
    readFile := fun _ => .error "ENOENT", jsonParse := fun _ => .ok () }

/-- A runner environment whose model downloads all exit non-zero, so
`downloadModel` rejects. -/
def rwEnvReject : RWEnv :=
  { dm := { fileExists := fun _ => false, downloadExit := fun _ => 1 },
    conv := cenvWav,
    readFile := fun _ => .error "ENOENT", jsonParse := fun _ => .ok () }

/-! ## C7 — invalid model names -/

/-- **C7 (amended).** For a name outside the fixed model list that is not
the `all` sentinel, `downloadModel` resolves `{success:false}` before any
filesystem or network action (the effect trace is empty), and the
message is exactly `Invalid model: <name>`; the valid identifiers are
only printed to the console, not included in the message. -/
theorem downloadModel_invalid_fast_fail (env : DMEnv) (m : String)
    (hm : models.contains m = false) (hall : m ≠ "all") :
    downloadModel env m =
      (.ok (.obj { success := false, message := "Invalid model: " ++ m }), []) := by
  have h2 : (m == "all") = false := beq_eq_false_iff_ne.mpr hall
  have hm' : m ∉ models := by simpa using hm
  simp [downloadModel, hm, h2]
  intro h
  exact absurd (h hm') hall

/-- Witness for C7 at the concrete name `bogus`. -/
theorem downloadModel_invalid_fast_fail_witness :
    downloadModel dmEnv0 "bogus" =
      (.ok (.obj { success := false, message := "Invalid model: bogus" }), []) :=
  downloadModel_invalid_fast_fail dmEnv0 "bogus" (by decide) (by decide)

/-- **C7, counterexample to the claim as stated.**  The failure result for
`bogus` does fail fast, but its message is `Invalid model: bogus`, and
the valid identifier `tiny` (a member of the fixed list) does not occur
in it — the message does not enumerate the valid identifiers. -/
theorem downloadModel_invalid_message_cex :
    (downloadModel dmEnv0 "bogus").fst =
      .ok (.obj { success := false, message := "Invalid model: bogus" }) ∧
    "tiny" ∈ models ∧
    strIncludes "Invalid model: bogus" "tiny" = false :=
  ⟨rfl, by decide, by decide⟩

/-! ## C3 — the `all` fan-out -/

/-- If every listed promise resolves, `promiseAll` resolves the full list
of values. -/
theorem promiseAll_ok_of_forall {ε α β : Type} (f : β → Except ε α) (l : List β)
    (h : ∀ x ∈ l, ∃ a, f x = .ok a) :
    ∃ res, promiseAll (l.map f) = .ok res ∧ res.length = l.length := by
  induction l with
  | nil => exact ⟨[], rfl, rfl⟩
  | cons x xs ih =>
    obtain ⟨a, ha⟩ := h x (by simp)
    obtain ⟨res, hres, hlen⟩ := ih fun y hy => h y (by simp [hy])
    exact ⟨a :: res, by simp [promiseAll, ha, hres], by simp [hlen]⟩

/-- If some listed promise rejects, `promiseAll` rejects. -/
theorem promiseAll_error_of_exists {ε α β : Type} (f : β → Except ε α) (l : List β)
    (h : ∃ x ∈ l, ∃ e, f x = .error e) :
    ∃ e, promiseAll (l.map f) = .error e := by
  induction l with
  | nil => simp at h
  | cons x xs ih =>
    rcases hfx : f x with e | a
    · exact ⟨e, by simp [promiseAll, hfx]⟩
    · have h' : ∃ y ∈ xs, ∃ e, f y = .error e := by
        obtain ⟨y, hy, e, he⟩ := h
        rcases List.mem_cons.mp hy with rfl | hy'
        · rw [hfx] at he; exact Except.noConfusion he
        · exact ⟨y, hy', e, he⟩
      obtain ⟨e, he⟩ := ih h'
      exact ⟨e, by simp [promiseAll, hfx, he]⟩

/-- A valid, uncached model's single-model call spawns its download. -/
theorem downloadModelOne_spawns (env : DMEnv) (m : String) (hm : m ∈ models)
    (hc : env.fileExists (env.modelsPath ++ "/ggml-" ++ m ++ ".bin") = false) :
    ∃ url, DMEffect.spawnDownload m url ∈ (downloadModelOne env m).snd := by
  refine ⟨(if strIncludes m "tdrz" then srcAll else src) ++ "/" ++ pfx ++ "-" ++ m ++ ".bin", ?_⟩
  by_cases hdl : env.downloadExit m = 0 <;>
    simp [downloadModelOne, hm, hc, hdl]

/-- A valid model's single-model call resolves when the file is cached or
its download exits 0. -/
theorem downloadModelOne_resolves (env : DMEnv) (m : String) (hm : m ∈ models)
    (h : env.fileExists (env.modelsPath ++ "/ggml-" ++ m ++ ".bin") = true ∨
      env.downloadExit m = 0) :
    ∃ a, (downloadModelOne env m).fst = .ok a := by
  by_cases hc : env.fileExists (env.modelsPath ++ "/ggml-" ++ m ++ ".bin") = true
  · exact ⟨{ success := true,
             message := "Model " ++ m ++ " already exists. Skipping download.",
             modelFile := some (env.modelsPath ++ "/ggml-" ++ m ++ ".bin"),
             modelName := some m },
      by simp [downloadModelOne, hm, hc]⟩
  · have hc' : env.fileExists (env.modelsPath ++ "/ggml-" ++ m ++ ".bin") = false := by
      simpa using hc
    have hdl : env.downloadExit m = 0 := by
      rcases h with h | h
      · exact absurd h hc
      · exact h
    exact ⟨{ success := true,
             message := "Done! Model '" ++ m ++ "' saved in '" ++
               (env.modelsPath ++ "/ggml-" ++ m ++ ".bin") ++ "'",
             modelFile := some (env.modelsPath ++ "/ggml-" ++ m ++ ".bin"),
             modelName := some m },
      by simp [downloadModelOne, hm, hc', hdl]⟩

/-- A valid, uncached model whose download exits non-zero rejects. -/
theorem downloadModelOne_rejects (env : DMEnv) (m : String) (hm : m ∈ models)
    (hc : env.fileExists (env.modelsPath ++ "/ggml-" ++ m ++ ".bin") = false)
    (hdl : env.downloadExit m ≠ 0) :
    ∃ e, (downloadModelOne env m).fst = .error e :=
  ⟨{ success := false, error := "Failed to download ggml model " ++ m },
    by simp [downloadModelOne, hm, hc, hdl]⟩

/-- **C3 (amended).**  The `all` sentinel fans out to one download request
per concrete uncached model, and those requests are all issued whether or
not some of them fail (the spawn trace is a function of the cache state
alone).  But the aggregate value does not report per-model outcomes in
general: when every per-model promise resolves, the aggregate is
`{success: true, details}` with `success` hard-wired to `true`; when any
per-model promise rejects, the whole `Promise.all` rejects with that
single error object and reports no other outcome. -/
theorem downloadModel_all_fanout (env : DMEnv) :
    (∀ m ∈ models, env.fileExists (env.modelsPath ++ "/ggml-" ++ m ++ ".bin") = false →
      ∃ url, DMEffect.spawnDownload m url ∈ (downloadModel env "all").snd) ∧
    ((∀ m ∈ models, env.fileExists (env.modelsPath ++ "/ggml-" ++ m ++ ".bin") = true ∨
        env.downloadExit m = 0) →
      ∃ details, (downloadModel env "all").fst = .ok (.agg true details) ∧
        details.length = models.length) ∧
    ((∃ m ∈ models, env.fileExists (env.modelsPath ++ "/ggml-" ++ m ++ ".bin") = false ∧
        env.downloadExit m ≠ 0) →
      ∃ e, (downloadModel env "all").fst = .error e) := by
  have hsnd : (downloadModel env "all").snd =
      DMEffect.mkdirModels ::
        ((models.map fun m => downloadModelOne env m).map Prod.snd).flatten := by
    simp [downloadModel]
  have hfst : (downloadModel env "all").fst =
      match promiseAll (((models.map fun m => downloadModelOne env m)).map Prod.fst) with
      | .error e => .error e
      | .ok oks => .ok (.agg true oks) := by
    simp [downloadModel]
  have hmap : ((models.map fun m => downloadModelOne env m)).map Prod.fst =
      models.map fun m => (downloadModelOne env m).fst := by
    rw [List.map_map]; rfl
  refine ⟨?_, ?_, ?_⟩
  · intro m hm hc
    obtain ⟨url, hurl⟩ := downloadModelOne_spawns env m hm hc
    refine ⟨url, ?_⟩
    rw [hsnd]
    refine List.mem_cons_of_mem _ ?_
    rw [List.mem_flatten]
    refine ⟨(downloadModelOne env m).snd, ?_, hurl⟩
    rw [List.map_map]
    exact List.mem_map_of_mem _ hm
  · intro h
    obtain ⟨res, hres, hlen⟩ := promiseAll_ok_of_forall (fun m => (downloadModelOne env m).fst)
      models (fun m hm => downloadModelOne_resolves env m hm (h m hm))
    refine ⟨res, ?_, hlen⟩
    rw [hfst, hmap, hres]
  · intro h
    obtain ⟨m, hm, hc, hdl⟩ := h
    obtain ⟨e, he⟩ := promiseAll_error_of_exists (fun m => (downloadModelOne env m).fst)
      models ⟨m, hm, downloadModelOne_rejects env m hm hc hdl⟩
    refine ⟨e, ?_⟩
    rw [hfst, hmap, he]

/-- **C3, counterexample to the claim as stated.**  With nothing cached
and exactly the download of `tiny` failing, the `all` call rejects with
that one error object: there is no aggregate `{success, details}` value
reporting the outcome of every per-model request. -/
theorem downloadModel_all_aggregate_cex :
    (downloadModel dmEnvFailTiny "all").fst =
      .error { success := false, error := "Failed to download ggml model tiny" } ∧
    ¬ ∃ details, (downloadModel dmEnvFailTiny "all").fst = .ok (.agg true details) := by
  refine ⟨rfl, ?_⟩
  rintro ⟨details, h⟩
  have h0 : (downloadModel dmEnvFailTiny "all").fst =
      .error { success := false, error := "Failed to download ggml model tiny" } := rfl
  rw [h0] at h
  exact Except.noConfusion h

/-! ## C5 — already-canonical input -/

/-- **C5 (amended).**  For a `.wav` input already at the requested rate,
`convertAudioFile` returns success with the unchanged input path as the
output, performs no transcoding subprocess call and deletes nothing —
but it does perform exactly one subprocess call, the ffprobe sample-rate
probe. -/
theorem convertAudioFile_wav_already_canonical (env : ConvEnv) (input : String) (rate : Nat)
    (hplat : env.platformError = none)
    (hff : env.ffmpegPresent = true) (hfp : env.ffprobePresent = true)
    (hex : env.fileExists input = true)
    (hwav : toLowerStr (extname input) = ".wav")
    (hprobe : (env.probe input).exitCode = 0)
    (hrate : (parseNat? (trimStr (env.probe input).stdout)).getD 0 = rate) :
    convertAudioFile env input rate =
      { result := { success := true,
                    message := "Input file '" ++ input ++
                      "' is already at the desired sample rate.",
                    output := some input },
        spawns := [Spawn.probe input], unlinks := [] } := by
  simp [convertAudioFile, convertBody, getSampleRate, hplat, hff, hfp, hex, hwav, hprobe, hrate]

/-- Witness for C5 at `a.wav` in an environment probing 16000. -/
theorem convertAudioFile_wav_already_canonical_witness :
    convertAudioFile cenvWav "a.wav" 16000 =
      { result := { success := true,
                    message := "Input file 'a.wav' is already at the desired sample rate.",
                    output := some "a.wav" },
        spawns := [Spawn.probe "a.wav"], unlinks := [] } :=
  convertAudioFile_wav_already_canonical cenvWav "a.wav" 16000 rfl rfl rfl (by decide)
    (by decide) rfl (by decide)

/-- **C5, counterexample to the claim as stated.**  The same call is not
subprocess-free: it spawns the ffprobe probe, so "performs no subprocess
calls" fails even on the already-canonical path. -/
theorem convertAudioFile_wav_spawns_probe_cex :
    ¬ ((convertAudioFile cenvWav "a.wav" 16000).result.success = true ∧
       (convertAudioFile cenvWav "a.wav" 16000).result.output = some "a.wav" ∧
       (convertAudioFile cenvWav "a.wav" 16000).spawns = []) := by
  decide

/-! ## C4 — the temporary intermediate WAV file -/

/-- **C4 (amended).**  For a non-canonical input whose first transcode
succeeded (so the temporary `<input>.TEMP.wav` was created and is then
consumed by the later steps): if the probe of the temporary file fails,
the call returns failure with no `unlink` performed; if the probe
succeeds with a rate different from the target, the temporary file is
deleted before return only when the resample pass succeeds — when the
resample pass fails, the call returns failure with the temporary file
left in place. -/
theorem convertAudioFile_temp_cleanup (env : ConvEnv) (input : String) (rate : Nat)
    (hplat : env.platformError = none)
    (hff : env.ffmpegPresent = true) (hfp : env.ffprobePresent = true)
    (hex : env.fileExists input = true)
    (hnw : (toLowerStr (extname input) == ".wav") = false)
    (htw : (env.toWav input (input ++ ".TEMP.wav")).exitCode = 0) :
    ((env.probe (input ++ ".TEMP.wav")).exitCode ≠ 0 →
      (convertAudioFile env input rate).unlinks = [] ∧
      (convertAudioFile env input rate).result.success = false) ∧
    ((env.probe (input ++ ".TEMP.wav")).exitCode = 0 →
      (parseNat? (trimStr (env.probe (input ++ ".TEMP.wav")).stdout)).getD 0 ≠ rate →
      ((env.resample (input ++ ".TEMP.wav") rate (input ++ ".OUTPUT.wav")).exitCode = 0 →
        (convertAudioFile env input rate).unlinks = [input ++ ".TEMP.wav"] ∧
        (convertAudioFile env input rate).result.success = true) ∧
      ((env.resample (input ++ ".TEMP.wav") rate (input ++ ".OUTPUT.wav")).exitCode ≠ 0 →
        (convertAudioFile env input rate).unlinks = [] ∧
        (convertAudioFile env input rate).result.success = false)) := by
  refine ⟨?_, ?_⟩
  · intro hpr
    constructor <;>
      simp [convertAudioFile, convertBody, getSampleRate, convertToWav,
        hplat, hff, hfp, hex, hnw, htw, hpr]
  · intro hpr hrate
    constructor <;> intro hrs <;>
      simp [convertAudioFile, convertBody, getSampleRate, convertToWav, convertSampleRate,
        hplat, hff, hfp, hex, hnw, htw, hpr, hrate, hrs]

/-- Witness for C4: at `a.mp3` the probe succeeds at 44100 and the
resample pass fails — the call fails and the temporary file is not
unlinked. -/
theorem convertAudioFile_temp_cleanup_witness :
    (convertAudioFile cenvMp3 "a.mp3" 16000).unlinks = [] ∧
    (convertAudioFile cenvMp3 "a.mp3" 16000).result.success = false :=
  ((convertAudioFile_temp_cleanup cenvMp3 "a.mp3" 16000 rfl rfl rfl (by decide) (by decide)
    rfl).2 rfl (by decide)).2 (by decide)

/-- **C4, counterexample to the claim as stated.**  At `a.mp3` the later
steps consume the temporary file (it is probed and fed to the resample
pass), the call returns failure, and no file is unlinked: the temporary
intermediate is *not* deleted on the failure outcome. -/
theorem convertAudioFile_temp_leak_cex :
    (convertAudioFile cenvMp3 "a.mp3" 16000).spawns =
      [Spawn.ffmpegToWav "a.mp3" "a.mp3.TEMP.wav", Spawn.probe "a.mp3.TEMP.wav",
       Spawn.ffmpegResample "a.mp3.TEMP.wav" 16000 "a.mp3.OUTPUT.wav"] ∧
    (convertAudioFile cenvMp3 "a.mp3" 16000).result.success = false ∧
    (convertAudioFile cenvMp3 "a.mp3" 16000).unlinks = [] := by
  decide

/-! ## C9 — `convertAudioFile` catches every failure mode -/

/-- **C9.**  `convertAudioFile` is total over its failure modes: the model
of its promise always resolves (the function is total into
`ConvOutcome`), and each failure mode of the claim — unsupported
platform, missing ffmpeg/ffprobe, nonexistent input, failed probe,
failed container transcode, failed resample — is caught by the
surrounding `try/catch` and returned as a resolved
`{success:false, message}` object with no `output` field. -/
theorem convertAudioFile_catches_all (env : ConvEnv) (input : String) (rate : Nat) :
    (∀ e, env.platformError = some e →
      (convertAudioFile env input rate).result =
        { success := false,
          message := "Failed to convert '" ++ input ++
            "' to the desired sample rate: " ++ e }) ∧
    (env.platformError = none → (env.ffmpegPresent && env.ffprobePresent) = false →
      (convertAudioFile env input rate).result =
        { success := false,
          message := "Failed to convert '" ++ input ++
            "' to the desired sample rate: " ++ "FFmpeg or ffprobe is not installed." }) ∧
    (env.platformError = none → env.ffmpegPresent = true → env.ffprobePresent = true →
      env.fileExists input = false →
      (convertAudioFile env input rate).result =
        { success := false,
          message := "Failed to convert '" ++ input ++
            "' to the desired sample rate: " ++ ("Input file '" ++ input ++ "' not found.") }) ∧
    (env.platformError = none → env.ffmpegPresent = true → env.ffprobePresent = true →
      env.fileExists input = true → (toLowerStr (extname input) == ".wav") = true →
      (env.probe input).exitCode ≠ 0 →
      (convertAudioFile env input rate).result =
        { success := false,
          message := "Failed to convert '" ++ input ++
            "' to the desired sample rate: " ++ ("Failed to get sample rate: " ++
              trimStr (env.probe input).stderr) }) ∧
    (env.platformError = none → env.ffmpegPresent = true → env.ffprobePresent = true →
      env.fileExists input = true → (toLowerStr (extname input) == ".wav") = false →
      (env.toWav input (input ++ ".TEMP.wav")).exitCode ≠ 0 →
      (convertAudioFile env input rate).result =
        { success := false,
          message := "Failed to convert '" ++ input ++
            "' to the desired sample rate: " ++ ("Failed to convert to WAV: " ++
              trimStr (env.toWav input (input ++ ".TEMP.wav")).stderr) }) ∧
    (env.platformError = none → env.ffmpegPresent = true → env.ffprobePresent = true →
      env.fileExists input = true → (toLowerStr (extname input) == ".wav") = false →
      (env.toWav input (input ++ ".TEMP.wav")).exitCode = 0 →
      (env.probe (input ++ ".TEMP.wav")).exitCode = 0 →
      (parseNat? (trimStr (env.probe (input ++ ".TEMP.wav")).stdout)).getD 0 ≠ rate →
      (env.resample (input ++ ".TEMP.wav") rate (input ++ ".OUTPUT.wav")).exitCode ≠ 0 →
      (convertAudioFile env input rate).result =
        { success := false,
          message := "Failed to convert '" ++ input ++
            "' to the desired sample rate: " ++ ("Failed to convert '" ++
              (input ++ ".TEMP.wav") ++ "' to the desired sample rate: " ++
              trimStr (env.resample (input ++ ".TEMP.wav") rate (input ++ ".OUTPUT.wav")).stderr) }) := by
  refine ⟨?_, ?_, ?_, ?_, ?_, ?_⟩
  · intro e he
    simp [convertAudioFile, convertBody, he]
  · intro hplat hpair
    simp [convertAudioFile, convertBody, hplat, hpair]
  · intro hplat hff hfp hex
    simp [convertAudioFile, convertBody, hplat, hff, hfp, hex]
  · intro hplat hff hfp hex hwav hprobe
    simp [convertAudioFile, convertBody, getSampleRate, hplat, hff, hfp, hex, hwav, hprobe]
  · intro hplat hff hfp hex hnw htw
    simp [convertAudioFile, convertBody, convertToWav, hplat, hff, hfp, hex, hnw, htw]
  · intro hplat hff hfp hex hnw htw hpr hrate hrs
    simp [convertAudioFile, convertBody, getSampleRate, convertToWav, convertSampleRate,
      hplat, hff, hfp, hex, hnw, htw, hpr, hrate, hrs]

/-! ## C1 — failure message propagation through the pipeline -/

/-- **C1 (amended).**  Any step's resolved failure makes the whole
`runWhisper` call a resolved failure; the audio-normalization step's
message is forwarded verbatim, but a resolved failure of the
model-acquisition step is reported with the fixed message
`Failed to download ggml model <model>`, not with the step's own
message. -/
theorem runWhisper_step_failure_message (env : RWEnv) (opts : RWOptions)
    (inputFile model language : String) :
    (∀ v, (downloadModel env.dm model).fst = .ok v → dmSuccess v = false →
      (runWhisper env opts inputFile model language).result =
        .ok { success := false, message := "Failed to download ggml model " ++ model }) ∧
    (∀ v, (downloadModel env.dm model).fst = .ok v → dmSuccess v = true →
      (convertAudioFile env.conv inputFile).result.success = false →
      (runWhisper env opts inputFile model language).result =
        .ok { success := false,
              message := (convertAudioFile env.conv inputFile).result.message }) := by
  constructor
  · intro v hv hs
    simp [runWhisper, hv, hs]
  · intro v hv hs hc
    simp [runWhisper, hv, hs, hc]

/-- **C1, counterexample to the claim as stated.**  For model `bogus` the
model-acquisition step resolves `{success:false}` with message
`Invalid model: bogus`, yet the pipeline's returned message is the
different string `Failed to download ggml model bogus`: the originating
message is not preserved. -/
theorem runWhisper_model_message_cex :
    (downloadModel rwEnvOk.dm "bogus").fst =
      .ok (.obj { success := false, message := "Invalid model: bogus" }) ∧
    (runWhisper rwEnvOk {} "a.wav" "bogus" "auto").result =
      .ok { success := false, message := "Failed to download ggml model bogus" } ∧
    ("Failed to download ggml model bogus" : String) ≠ "Invalid model: bogus" :=
  ⟨rfl, rfl, by decide⟩

/-! ## C2 — structured results versus rejections -/

/-- **C2 (amended).**  Whenever the model-acquisition promise settles by
*resolving* (valid cached model, successful download, or even an invalid
name) and the engine spawn emits no `error` event, `runWhisper` resolves
a structured `{success, message}` result — this covers invalid models,
conversion failures, non-zero engine exits and artifact failures.  It is
not exception-free in general: `downloadModel` *rejects* when its
download subprocess exits non-zero, and `runWhisper` awaits it with no
guard, propagating the rejection (see the counterexample). -/
theorem runWhisper_resolves_structured (env : RWEnv) (opts : RWOptions)
    (inputFile model language : String)
    (hdm : ∃ v, (downloadModel env.dm model).fst = .ok v)
    (hspawn : env.whisperSpawnError = none) :
    ∃ r : RunResult, (runWhisper env opts inputFile model language).result = .ok r := by
  obtain ⟨v, hv⟩ := hdm
  by_cases hs : dmSuccess v = true
  · by_cases hc : (convertAudioFile env.conv inputFile).result.success = true
    · by_cases hx : env.whisperExit = 0
      · exact ⟨(collectOutputs env opts
            ((convertAudioFile env.conv inputFile).result.output.getD "undefined")).fst,
          by simp [runWhisper, hv, hs, hc, hspawn, hx]⟩
      · exact ⟨{ success := false,
                 message := "Whisper process failed with code " ++ toString env.whisperExit ++
                   ". stderr: " ++ env.whisperStderr },
          by simp [runWhisper, hv, hs, hc, hspawn, hx]⟩
    · have hc' : (convertAudioFile env.conv inputFile).result.success = false := by
        simpa using hc
      exact ⟨{ success := false,
               message := (convertAudioFile env.conv inputFile).result.message },
        by simp [runWhisper, hv, hs, hc']⟩
  · have hs' : dmSuccess v = false := by simpa using hs
    exact ⟨{ success := false, message := "Failed to download ggml model " ++ model },
      by simp [runWhisper, hv, hs']⟩

/-- Witness for C2: a fully successful run resolves a structured value. -/
theorem runWhisper_resolves_structured_witness :
    ∃ r : RunResult, (runWhisper rwEnvOk {} "a.wav" "tiny" "auto").result = .ok r :=
  runWhisper_resolves_structured rwEnvOk {} "a.wav" "tiny" "auto" ⟨_, rfl⟩ rfl

/-- **C2, counterexample to the claim as stated.**  When the download
subprocess for `tiny` exits non-zero, `downloadModel` rejects and
`runWhisper`'s promise rejects with that object — the caller does not
receive a structured result value. -/
theorem runWhisper_rejects_cex :
    (runWhisper rwEnvReject {} "a.wav" "tiny" "auto").result =
      .error (.dm { success := false, error := "Failed to download ggml model tiny" }) ∧
    ¬ ∃ r : RunResult, (runWhisper rwEnvReject {} "a.wav" "tiny" "auto").result = .ok r := by
  refine ⟨rfl, ?_⟩
  rintro ⟨r, hr⟩
  have h0 : (runWhisper rwEnvReject {} "a.wav" "tiny" "auto").result =
      .error (.dm { success := false, error := "Failed to download ggml model tiny" }) := rfl
  rw [h0] at hr
  exact Except.noConfusion hr

/-! ## C8 — engine exit codes and requested artifacts -/

/-- **C8.**  With model and conversion steps successful and the engine
spawned: a non-zero engine exit resolves `{success:false}` whose message
carries the exit code and the captured stderr, and no artifact read is
attempted; a zero exit with JSON output requested and the JSON artifact
missing or unparseable resolves `{success:false}` despite the zero exit
code (the failed read being the only one attempted). -/
theorem runWhisper_engine_failures (env : RWEnv) (opts : RWOptions)
    (inputFile model language : String)
    (hdm : ∃ v, (downloadModel env.dm model).fst = .ok v ∧ dmSuccess v = true)
    (hconv : (convertAudioFile env.conv inputFile).result.success = true)
    (hspawn : env.whisperSpawnError = none) :
    (env.whisperExit ≠ 0 →
      (runWhisper env opts inputFile model language).result =
        .ok { success := false,
              message := "Whisper process failed with code " ++ toString env.whisperExit ++
                ". stderr: " ++ env.whisperStderr } ∧
      (runWhisper env opts inputFile model language).reads = []) ∧
    (env.whisperExit = 0 → (opts.outputJson || opts.outputAll) = true →
      ∀ e, readJsonEntry env
          ((convertAudioFile env.conv inputFile).result.output.getD "undefined" ++ ".json") =
            .error e →
        (runWhisper env opts inputFile model language).result =
          .ok { success := false, message := e } ∧
        (runWhisper env opts inputFile model language).reads =
          [(convertAudioFile env.conv inputFile).result.output.getD "undefined" ++ ".json"]) := by
  obtain ⟨v, hv, hs⟩ := hdm
  constructor
  · intro hx
    constructor <;> simp [runWhisper, hv, hs, hconv, hspawn, hx]
  · intro hx hwant e he
    constructor <;>
      simp [runWhisper, collectOutputs, hv, hs, hconv, hspawn, hx, hwant, he]

/-- Witness for C8 at an engine exiting 1 with stderr `boom`. -/
theorem runWhisper_engine_failures_witness :
    (runWhisper rwEnvExit1 {} "a.wav" "tiny" "auto").result =
      .ok { success := false, message := "Whisper process failed with code 1. stderr: boom" } ∧
    (runWhisper rwEnvExit1 {} "a.wav" "tiny" "auto").reads = [] :=
  (runWhisper_engine_failures rwEnvExit1 {} "a.wav" "tiny" "auto" ⟨_, rfl, rfl⟩ rfl rfl).1
    (by decide)

/-! ## C10 — default output options -/

/-- **C10 (amended).**  For an options object that sets none of
`outputJson`/`outputTxt`/`outputCsv` *and does not set the undocumented
`outputAll` option*, all three merged flags are `false` (the in-code
default, although the constructor's doc comment claims `outputJson`
defaults to `true`), the built command line is the flag-free argument
list (no `--output-json`/`--output-txt`/`--output-csv` token is
introduced), and a successful engine run resolves `success:true` with an
empty output list, reading no artifact file. -/
theorem mergedDefaults_no_output_flags (u : UserOptions) (env : RWEnv)
    (inputFile model language : String)
    (hj : u.outputJson = none) (ht : u.outputTxt = none) (hc : u.outputCsv = none)
    (ha : u.outputAll = none) :
    (mergeOptions u).outputJson = false ∧
    (mergeOptions u).outputTxt = false ∧
    (mergeOptions u).outputCsv = false ∧
    (∀ mf lang f, buildArgs (mergeOptions u) mf lang f =
      ([ "--threads", toString (mergeOptions u).threads,
         "--processors", toString (mergeOptions u).processors,
         "--duration", toString (mergeOptions u).duration,
         "--max-len", toString (mergeOptions u).maxLen,
         if (mergeOptions u).translate then "--translate" else "",
         "--model", mf,
         "--language", lang,
         "--file", f ]).filter fun s => s != "") ∧
    ((∃ v, (downloadModel env.dm model).fst = .ok v ∧ dmSuccess v = true) →
      (convertAudioFile env.conv inputFile).result.success = true →
      env.whisperSpawnError = none → env.whisperExit = 0 →
      (runWhisper env (mergeOptions u) inputFile model language).result =
        .ok { success := true, message := "Whisper process completed successfully.",
              output := some [] } ∧
      (runWhisper env (mergeOptions u) inputFile model language).reads = []) := by
  refine ⟨by simp [mergeOptions, hj], by simp [mergeOptions, ht], by simp [mergeOptions, hc],
    ?_, ?_⟩
  · intro mf lang f
    simp [buildArgs, mergeOptions, hj, ht, hc, ha, List.filter_cons]
  · rintro ⟨v, hv, hs⟩ hconv hspawn hx
    constructor <;>
      simp [runWhisper, collectOutputs, mergeOptions, hj, ht, hc, ha,
        hv, hs, hconv, hspawn, hx]

/-- Witness for C10: the empty options object, a cached-free but
successful environment, engine exit 0 — the run resolves success with an
empty output list and reads nothing. -/
theorem mergedDefaults_no_output_flags_witness :
    (runWhisper rwEnvOk (mergeOptions {}) "a.wav" "tiny" "auto").result =
      .ok { success := true, message := "Whisper process completed successfully.",
            output := some [] } ∧
    (runWhisper rwEnvOk (mergeOptions {}) "a.wav" "tiny" "auto").reads = [] :=
  (mergedDefaults_no_output_flags {} rwEnvOk "a.wav" "tiny" "auto" rfl rfl rfl rfl).2.2.2.2
    ⟨_, rfl, rfl⟩ rfl rfl rfl

/-- **C10, counterexample to the claim as stated.**  The options object
that sets only the undocumented `outputAll` sets none of
`outputJson`/`outputTxt`/`outputCsv` — all three still default to
`false` — and yet the built command line does contain `--output-json`:
the claim's "no output-format flags" part fails for it. -/
theorem mergedDefaults_outputAll_cex :
    (mergeOptions { outputAll := some true }).outputJson = false ∧
    (mergeOptions { outputAll := some true }).outputTxt = false ∧
    (mergeOptions { outputAll := some true }).outputCsv = false ∧
    "--output-json" ∈ buildArgs (mergeOptions { outputAll := some true }) "m" "auto" "a.wav" := by
  refine ⟨rfl, rfl, rfl, ?_⟩
  decide

/-! ## C6 — the provisioning success flag -/

/-- **C6.**  For every `fetchBinFiles` call that takes the structured
path (a non-empty program list), the returned `success` flag is `true`
iff every requested primary file exists on disk at its computed
destination (initially present or written by this call) and the primary
and dependency failure lists are both empty — exactly the final
recomputation in the source. -/
theorem fetchBinFiles_success_iff (env : FetchEnv) (files : List BinFile)
    (programs : List String) (destDir : String) (h : programs ≠ []) :
    ((fetchBinFiles env files programs destDir).fst.success = true) ↔
      ((∀ f ∈ files, fsExists env (fetchBinFiles env files programs destDir).snd
          (joinP destDir f.path) = true) ∧
       (fetchBinFiles env files programs destDir).fst.filesFailed = [] ∧
       (fetchBinFiles env files programs destDir).fst.depsFailed = []) := by
  have hne : programs.isEmpty = false := by
    cases programs with
    | nil => exact absurd rfl h
    | cons p ps => rfl
  simp [fetchBinFiles, hne, List.all_eq_true, List.isEmpty_iff, and_assoc]

/-- Witness for C6: one `whisper` file already on disk, no dependencies —
the call succeeds, and the equivalence instantiates. -/
theorem fetchBinFiles_success_iff_witness :
    ((fetchBinFiles { exists0 := fun _ => true, download := fun _ _ => .ok () }
        [{ filename := "whisper", url := "u", path := "linux/whisper" }]
        ["whisper"] "bin").fst.success = true) ↔
      ((∀ f ∈ [({ filename := "whisper", url := "u", path := "linux/whisper" } : BinFile)],
          fsExists { exists0 := fun _ => true, download := fun _ _ => .ok () }
            (fetchBinFiles { exists0 := fun _ => true, download := fun _ _ => .ok () }
              [{ filename := "whisper", url := "u", path := "linux/whisper" }]
              ["whisper"] "bin").snd (joinP "bin" f.path) = true) ∧
       (fetchBinFiles { exists0 := fun _ => true, download := fun _ _ => .ok () }
          [{ filename := "whisper", url := "u", path := "linux/whisper" }]
          ["whisper"] "bin").fst.filesFailed = [] ∧
       (fetchBinFiles { exists0 := fun _ => true, download := fun _ _ => .ok () }
          [{ filename := "whisper", url := "u", path := "linux/whisper" }]
          ["whisper"] "bin").fst.depsFailed = []) :=
  fetchBinFiles_success_iff { exists0 := fun _ => true, download := fun _ _ => .ok () }
    [{ filename := "whisper", url := "u", path := "linux/whisper" }]
    ["whisper"] "bin" (by simp)

end Audio2Text
